import Mathlib

/-!
Verification of the virtual hub platform `pbio_virtual/platform/robot.py`.

The file shallowly embeds the Python source: angles, speeds and times are
exact rationals (`ℚ`), object attributes become structure fields, and the
mutation of the shared simulated motor becomes explicit state passing
(each actuation returns the new motor state).

The physics integrator `SimpleMotor` (in `pbio_virtual/physics/motors.py`)
and the small `drv` peripherals (`CountingClock`, `VirtualIOPort`, port and
device-type enumerations) are external collaborators that are not part of
the analysed source; they are modelled from their specified interfaces, as
indicated in the doc comments below.
-/

namespace PbioVirtual

/-- Modelled from the spec: the external physics integrator advances the
state `(angle, speed)` from the current integration time to an end time
under a constant input.  The concrete dynamics of `SimpleMotor` are out of
scope, so they are kept abstract as a parameter: given the current time,
angle, speed, the requested end time and the held input, the dynamics
return the new `(angle, speed)`. -/
def Dyn : Type := ℚ → ℚ → ℚ → ℚ → ℚ → ℚ × ℚ

/-- Modelled from the spec: the state of one external `SimpleMotor`
instance — the most recently integrated time and the state vector
`(angle, speed)`.  The Python constructor receives the state vector in
radians (`math.radians` in `Platform.__init__`) while `get_latest_output`
reports degrees; the two unit conversions are inverse to each other, so
the model stores the state directly in the output units (degrees and
degrees per second). -/
structure SimMotor where
  time : ℚ
  angle : ℚ
  speed : ℚ
deriving DecidableEq, Repr

/-- Modelled from the spec: `simulate(end_time, input)` advances the
integrated state to `end_time` with the input held constant over the
interval.  Advancing to a time that has already been reached integrates
over an empty interval and leaves the state unchanged; otherwise the
abstract dynamics produce the new state vector.  The integrator is a
deterministic function of its arguments. -/
def SimMotor.simulate (dyn : Dyn) (m : SimMotor) (end_time u : ℚ) : SimMotor :=
  if end_time ≤ m.time then m
  else
    { time := end_time
      angle := (dyn m.time m.angle m.speed end_time u).1
      speed := (dyn m.time m.angle m.speed end_time u).2 }

/-- Modelled from the spec: `get_latest_output()` returns the pair
`(angle, speed)` as of the most recent `simulate` call, in degrees and
degrees per second. -/
def SimMotor.get_latest_output (m : SimMotor) : ℚ × ℚ :=
  (m.angle, m.speed)

/-- Python's `%` on exact values with a positive modulus: the remainder of
`x` modulo `m` lying in `[0, m)`. -/
def pymod (x m : ℚ) : ℚ :=
  x - m * ⌊x / m⌋

/-- Embedding of `VirtualMotorDriver.on_set_duty_cycle`.  The driver's
only state is its (possibly absent) reference to the shared simulated
motor; the call returns the updated motor state.  `args[0]` is the time in
microseconds and `args[1]` the duty cycle; the source computes
`end_time = args[0] / 1000000 + 0.005` seconds and simulates to it with
the duty held as the constant input. -/
def VirtualMotorDriver.on_set_duty_cycle (dyn : Dyn) (sim_motor : Option SimMotor)
    (time duty : ℚ) : Option SimMotor :=
  match sim_motor with
  | none => none
  | some m => some (m.simulate dyn (time / 1000000 + 5 / 1000) duty)

/-- Embedding of `VirtualMotorDriver.on_coast`: the source actuates just
as zero duty, calling `on_set_duty_cycle(args[0], 0)`. -/
def VirtualMotorDriver.on_coast (dyn : Dyn) (sim_motor : Option SimMotor)
    (time : ℚ) : Option SimMotor :=
  VirtualMotorDriver.on_set_duty_cycle dyn sim_motor time 0

/-- Embedding of `VirtualCounter.__init__`: when a motor is attached the
counter stores the motor's current angle as its starting point
(`self.initial_angle`); when no motor is attached the attribute is never
set, modelled as `none`. -/
def VirtualCounter.initCal (sim_motor : Option SimMotor) : Option ℚ :=
  sim_motor.map (fun m => m.get_latest_output.1)

/-- Embedding of the `VirtualCounter.abs_count` property: `0` with no
motor; otherwise the latest angle is reduced with `% 360` and `360` is
subtracted when the reduced value is not below `180`. -/
def VirtualCounter.abs_count (sim_motor : Option SimMotor) : ℚ :=
  match sim_motor with
  | none => 0
  | some m =>
      let abs_angle := pymod m.get_latest_output.1 360
      if abs_angle < 180 then abs_angle else abs_angle - 360

/-- Embedding of the `VirtualCounter.count` property: `0` with no motor;
otherwise the latest angle minus the stored starting angle. -/
def VirtualCounter.count (sim_motor : Option SimMotor) (initial_angle : ℚ) : ℚ :=
  match sim_motor with
  | none => 0
  | some m => m.get_latest_output.1 - initial_angle

/-- Embedding of the `VirtualCounter.rate` property: `0` with no motor;
otherwise the latest speed. -/
def VirtualCounter.rate (sim_motor : Option SimMotor) : ℚ :=
  match sim_motor with
  | none => 0
  | some m => m.get_latest_output.2

/-- Definition written from the spec's words for `abs_count` (§4.3), to be
compared with the embedding of the source: take the latest angle, reduce
modulo 360° into `[0°, 360°)`, then if the reduced value is `≥ 180°`,
subtract 360°. -/
def specAbsCount (angle : ℚ) : ℚ :=
  let reduced := pymod angle 360
  if 180 ≤ reduced then reduced - 360 else reduced

/-- An actuation call on the motor-driver boundary: either
`on_set_duty_cycle(time, duty)` or `on_coast(time)`. -/
inductive Act where
  | setDuty (time duty : ℚ)
  | coast (time : ℚ)

/-- Effect of one actuation call on the shared motor slot. -/
def applyAct (dyn : Dyn) (a : Act) (s : Option SimMotor) : Option SimMotor :=
  match a with
  | .setDuty t d => VirtualMotorDriver.on_set_duty_cycle dyn s t d
  | .coast t => VirtualMotorDriver.on_coast dyn s t

/-- Effect of a sequence of actuation calls on the shared motor slot. -/
def applyActs (dyn : Dyn) : List Act → Option SimMotor → Option SimMotor
  | [], s => s
  | a :: rest, s => applyActs dyn rest (applyAct dyn a s)

/-- Modelled from the spec: the port identities of the fixed configuration
table (`PortId` lives in the external `drv.ioport` module). -/
inductive PortId where
  | A | B | C | D | E | F
deriving DecidableEq, Repr

/-- Modelled from the spec: the device-type tags of the external
`drv.ioport` module.  The tags form an enumeration; the source only ever
compares a tag against `NONE`, so the model wraps a numeric identifier
with `NONE` as the distinguished no-device tag. -/
structure IODeviceTypeId where
  id : Nat
deriving DecidableEq, Repr

/-- Modelled from the spec: the tag for a port with no attached device. -/
def IODeviceTypeId.NONE : IODeviceTypeId := ⟨0⟩

/-- Modelled from the spec: the device-type tag the source's configuration
table attaches to port A; its only property used by the source is that it
differs from `NONE`. -/
def IODeviceTypeId.TECHNIC_L_ANGULAR_MOTOR : IODeviceTypeId := ⟨1⟩

/-- Modelled from the spec: the virtual scheduler clock.  The source
constructs `CountingClock(start=0, fuzz=0)`, whose `microseconds` counter
starts at `start`; only the value read during platform construction
matters here. -/
structure CountingClock where
  microseconds : ℚ
deriving DecidableEq, Repr

/-- Modelled from the spec: a fresh `CountingClock(start=0, fuzz=0)`. -/
def CountingClock.init (start : ℚ) : CountingClock :=
  { microseconds := start }

/-- Embedding of the per-port motor allocation inside `Platform.__init__`:
when the configured device type is not `NONE`, a simulated motor is
created with `t0` the current clock time in seconds, a random integer
initial angle (the draw `random.randint(-180, 179)` is passed in as
`rand_angle`) and zero initial speed; otherwise the slot stays empty. -/
def platformInitPort (clock : CountingClock) (rand_angle : ℤ)
    (type_id : IODeviceTypeId) : Option SimMotor :=
  if type_id ≠ IODeviceTypeId.NONE then
    some { time := clock.microseconds / 1000000
           angle := (rand_angle : ℚ)
           speed := 0 }
  else none

/-- Embedding of the loop of `Platform.__init__` over
`enumerate(self.PORTS.items())`: the list of motor slots, one per
configured port, where `rand i` is the i-th draw of
`random.randint(-180, 179)`. -/
def platformInitSlots (clock : CountingClock) (rand : Nat → ℤ) :
    Nat → List (PortId × IODeviceTypeId) → List (Option SimMotor)
  | _, [] => []
  | i, (_, type_id) :: rest =>
      platformInitPort clock (rand i) type_id :: platformInitSlots clock rand (i + 1) rest

/-- State of a constructed `Platform`: the clock, the per-port motor
slots, and the starting angles captured by the per-port
`VirtualCounter`s. -/
structure Platform where
  clock : CountingClock
  sim_motor : List (Option SimMotor)
  counter_initial_angle : List (Option ℚ)
  ports : List (PortId × IODeviceTypeId)
deriving DecidableEq, Repr

/-- Embedding of the state computed by `Platform.__init__` from a
configuration table and the sequence of random draws. -/
def Platform.initCore (ports : List (PortId × IODeviceTypeId)) (rand : Nat → ℤ) : Platform :=
  let clock := CountingClock.init 0
  let slots := platformInitSlots clock rand 0 ports
  { clock := clock
    sim_motor := slots
    counter_initial_angle := slots.map VirtualCounter.initCal
    ports := ports }

/-- Embedding of `Platform.__init__` as a fallible constructor:
`Except.error` would model a raised Python exception aborting startup, but
the source contains no raise or validation path, so construction always
returns `Except.ok` with the computed state. -/
def Platform.init (ports : List (PortId × IODeviceTypeId)) (rand : Nat → ℤ) :
    Except String Platform :=
  Except.ok (Platform.initCore ports rand)

/-- The source's fixed configuration table `Platform.PORTS`: a motor on
port A, nothing on ports B through F. -/
def Platform.PORTS : List (PortId × IODeviceTypeId) :=
  [(PortId.A, IODeviceTypeId.TECHNIC_L_ANGULAR_MOTOR),
   (PortId.B, IODeviceTypeId.NONE),
   (PortId.C, IODeviceTypeId.NONE),
   (PortId.D, IODeviceTypeId.NONE),
   (PortId.E, IODeviceTypeId.NONE),
   (PortId.F, IODeviceTypeId.NONE)]

end PbioVirtual

namespace PbioVirtual

/-! Helper lemmas about `pymod`. -/

theorem pymod_nonneg (x m : ℚ) (hm : 0 < m) : 0 ≤ pymod x m := by
  unfold pymod
  have h : (⌊x / m⌋ : ℚ) ≤ x / m := Int.floor_le _
  have := (mul_le_mul_of_nonneg_left h hm.le)
  rw [mul_div_cancel₀ _ hm.ne'] at this
  linarith

theorem pymod_lt (x m : ℚ) (hm : 0 < m) : pymod x m < m := by
  unfold pymod
  have h : x / m < ⌊x / m⌋ + 1 := Int.lt_floor_add_one _
  have := (mul_lt_mul_of_pos_left h hm)
  rw [mul_div_cancel₀ _ hm.ne'] at this
  nlinarith

/-! Helper lemmas about the embedded operations. -/

theorem abs_count_lb (m : SimMotor) : -180 ≤ VirtualCounter.abs_count (some m) := by
  unfold VirtualCounter.abs_count
  have h0 := pymod_nonneg m.get_latest_output.1 360 (by norm_num)
  by_cases h : pymod m.get_latest_output.1 360 < 180
  · simp only [if_pos h]
    linarith
  · simp only [if_neg h]
    linarith

theorem abs_count_ub (m : SimMotor) : VirtualCounter.abs_count (some m) < 180 := by
  unfold VirtualCounter.abs_count
  have h1 := pymod_lt m.get_latest_output.1 360 (by norm_num)
  by_cases h : pymod m.get_latest_output.1 360 < 180
  · simp only [if_pos h]
    exact h
  · simp only [if_neg h]
    linarith

theorem abs_count_of_pymod_eq (m : SimMotor)
    (h : pymod m.get_latest_output.1 360 = 180) :
    VirtualCounter.abs_count (some m) = -180 := by
  simp only [VirtualCounter.abs_count]
  rw [h]
  norm_num

theorem simulate_idem (dyn : Dyn) (m : SimMotor) (end_time u : ℚ) :
    (m.simulate dyn end_time u).simulate dyn end_time u = m.simulate dyn end_time u := by
  unfold SimMotor.simulate
  by_cases h : end_time ≤ m.time
  · simp only [if_pos h]
  · simp only [if_neg h, le_refl, if_pos]

theorem applyActs_some (dyn : Dyn) (acts : List Act) (m : SimMotor) :
    ∃ mf, applyActs dyn acts (some m) = some mf := by
  induction acts generalizing m with
  | nil => exact ⟨m, rfl⟩
  | cons a rest ih =>
      cases a with
      | setDuty t d =>
          simpa [applyActs, applyAct, VirtualMotorDriver.on_set_duty_cycle] using
            ih (m.simulate dyn (t / 1000000 + 5 / 1000) d)
      | coast t =>
          simpa [applyActs, applyAct, VirtualMotorDriver.on_coast,
            VirtualMotorDriver.on_set_duty_cycle] using
            ih (m.simulate dyn (t / 1000000 + 5 / 1000) 0)

theorem applyActs_none (dyn : Dyn) (acts : List Act) :
    applyActs dyn acts none = none := by
  induction acts with
  | nil => rfl
  | cons a rest ih =>
      cases a with
      | setDuty t d => simpa [applyActs, applyAct, VirtualMotorDriver.on_set_duty_cycle] using ih
      | coast t =>
          simpa [applyActs, applyAct, VirtualMotorDriver.on_coast,
            VirtualMotorDriver.on_set_duty_cycle] using ih

theorem platformInitSlots_get? (clock : CountingClock) (rand : Nat → ℤ) :
    ∀ (l : List (PortId × IODeviceTypeId)) (k i : Nat) (h : i < l.length),
      (platformInitSlots clock rand k l).get? i =
        some (platformInitPort clock (rand (k + i)) (l.get ⟨i, h⟩).2) := by
  intro l
  induction l with
  | nil => intro k i h; simp at h
  | cons p rest ih =>
      intro k i h
      cases i with
      | zero => simp [platformInitSlots]
      | succ j =>
          have hj : j < rest.length := by simpa using Nat.lt_of_succ_lt_succ h
          have := ih (k + 1) j hj
          simpa [platformInitSlots, Nat.add_assoc, Nat.add_comm 1 j] using this

end PbioVirtual

namespace PbioVirtual

/-! Claim theorems. -/

/-- C1 (counterexample): the claim that `abs_count` is strictly greater
than `-180` and at most `180` fails on the code: a motor whose latest
simulated angle is exactly `180°` reduces to `180` under `% 360`, which is
not `< 180`, so the accessor returns `180 - 360 = -180`, violating the
strict lower bound. -/
theorem c1_range_counterexample :
    ¬ (-180 < VirtualCounter.abs_count (some { time := 0, angle := 180, speed := 0 }) ∧
       VirtualCounter.abs_count (some { time := 0, angle := 180, speed := 0 }) ≤ 180) := by
  have h : VirtualCounter.abs_count (some { time := 0, angle := 180, speed := 0 }) = -180 := by
    simp only [VirtualCounter.abs_count, SimMotor.get_latest_output]
    norm_num [pymod]
  rw [h]
  norm_num

/-- C1 (amended): for every port with an attached motor and every
reachable simulated angle, `abs_count` lies in the half-open range
`[-180°, 180°)`: it is at least `-180` and strictly below `180`. -/
theorem c1_abs_count_range (m : SimMotor) :
    -180 ≤ VirtualCounter.abs_count (some m) ∧ VirtualCounter.abs_count (some m) < 180 :=
  ⟨abs_count_lb m, abs_count_ub m⟩

/-- C1 (witness). -/
theorem c1_abs_count_range_witness :
    -180 ≤ VirtualCounter.abs_count (some { time := 0, angle := 45, speed := 0 }) ∧
    VirtualCounter.abs_count (some { time := 0, angle := 45, speed := 0 }) < 180 :=
  c1_abs_count_range { time := 0, angle := 45, speed := 0 }

/-- C2: `abs_count` for an attached motor is computed exactly as the spec
describes — reduce the latest angle modulo 360° into `[0°, 360°)`, then
subtract 360° when the reduced value is `≥ 180°` — and at the boundary a
reduced value of exactly `180°` yields `-180°`, not `+180°`. -/
theorem c2_abs_count_algorithm (m : SimMotor) :
    VirtualCounter.abs_count (some m) = specAbsCount m.get_latest_output.1 ∧
    (pymod m.get_latest_output.1 360 = 180 → VirtualCounter.abs_count (some m) = -180) := by
  constructor
  · simp only [VirtualCounter.abs_count, specAbsCount]
    rcases lt_or_le (pymod m.get_latest_output.1 360) 180 with h | h
    · rw [if_pos h, if_neg (by linarith)]
    · rw [if_neg (by linarith), if_pos h]
  · exact abs_count_of_pymod_eq m

/-- C2 (witness): at a simulated angle of exactly `180°` the reduced
value is `180` and `abs_count` returns `-180`. -/
theorem c2_abs_count_algorithm_witness :
    pymod (SimMotor.get_latest_output { time := 0, angle := 180, speed := 0 }).1 360 = 180 ∧
    VirtualCounter.abs_count (some { time := 0, angle := 180, speed := 0 }) = -180 := by
  have h : pymod (SimMotor.get_latest_output { time := 0, angle := 180, speed := 0 }).1 360
      = 180 := by
    simp only [SimMotor.get_latest_output]
    norm_num [pymod]
  exact ⟨h, (c2_abs_count_algorithm { time := 0, angle := 180, speed := 0 }).2 h⟩

end PbioVirtual

namespace PbioVirtual

/-- C3 (counterexample): construction with a device-type tag that has no
corresponding simulated-motor constructor (an unrecognized tag `99`) does
not abort: `Platform.__init__` completes normally and silently wires the
port with an ordinary simulated motor, because the source only tests the
tag against `NONE` and performs no validation. -/
theorem c3_counterexample :
    Platform.init [(PortId.A, ⟨99⟩)] (fun _ => 0) =
      Except.ok { clock := CountingClock.init 0
                  sim_motor := [some { time := 0, angle := 0, speed := 0 }]
                  counter_initial_angle := [some 0]
                  ports := [(PortId.A, ⟨99⟩)] } := by
  norm_num [Platform.init, Platform.initCore, platformInitSlots, platformInitPort,
    CountingClock.init, VirtualCounter.initCal, SimMotor.get_latest_output,
    IODeviceTypeId.NONE]

/-- C3 (amended): platform construction performs no device-type
validation and never aborts: it always returns the constructed state, and
every port whose device-type tag differs from `NONE` — recognized or not —
is silently wired with a simulated motor. -/
theorem c3_no_validation (ports : List (PortId × IODeviceTypeId)) (rand : Nat → ℤ) :
    Platform.init ports rand = Except.ok (Platform.initCore ports rand) ∧
    ∀ i (h : i < ports.length), (ports.get ⟨i, h⟩).2 ≠ IODeviceTypeId.NONE →
      (Platform.initCore ports rand).sim_motor.get? i =
        some (some { time := (CountingClock.init 0).microseconds / 1000000
                     angle := (rand i : ℚ)
                     speed := 0 }) := by
  refine ⟨rfl, ?_⟩
  intro i h hne
  have hslot := platformInitSlots_get? (CountingClock.init 0) rand ports 0 i h
  simp only [Nat.zero_add] at hslot
  simp only [Platform.initCore]
  rw [hslot, platformInitPort, if_pos hne]

/-- C3 (witness for the amended claim). -/
theorem c3_no_validation_witness :
    (Platform.initCore [(PortId.A, ⟨99⟩)] (fun _ => 7)).sim_motor.get? 0 =
      some (some { time := (CountingClock.init 0).microseconds / 1000000
                   angle := ((7 : ℤ) : ℚ)
                   speed := 0 }) :=
  (c3_no_validation [(PortId.A, ⟨99⟩)] (fun _ => 7)).2 0 (by norm_num) (by decide)

/-- C4: the counter's starting angle is captured at construction, and
after any sequence of actuation calls the shared slot still holds a motor
and `count` returns exactly the latest angle minus that starting angle,
with no modular or wraparound correction. -/
theorem c4_count_unwrapped (dyn : Dyn) (acts : List Act) (m0 : SimMotor) :
    VirtualCounter.initCal (some m0) = some m0.get_latest_output.1 ∧
    ∃ mf, applyActs dyn acts (some m0) = some mf ∧
      VirtualCounter.count (applyActs dyn acts (some m0)) m0.get_latest_output.1 =
        mf.get_latest_output.1 - m0.get_latest_output.1 := by
  obtain ⟨mf, hmf⟩ := applyActs_some dyn acts m0
  exact ⟨rfl, mf, hmf, by rw [hmf]; simp [VirtualCounter.count]⟩

/-- C5: on a port with no attached motor, `set_duty_cycle` and `coast`
are no-ops for any arguments (the slot stays empty under any call
history, and being total functions they cannot raise), and `abs_count`,
`count` and `rate` all return exactly `0`. -/
theorem c5_no_motor (dyn : Dyn) (time duty initial_angle : ℚ) (acts : List Act) :
    VirtualMotorDriver.on_set_duty_cycle dyn none time duty = none ∧
    VirtualMotorDriver.on_coast dyn none time = none ∧
    applyActs dyn acts none = none ∧
    VirtualCounter.abs_count none = 0 ∧
    VirtualCounter.count none initial_angle = 0 ∧
    VirtualCounter.rate none = 0 :=
  ⟨rfl, rfl, applyActs_none dyn acts, rfl, rfl, rfl⟩

/-- C6: on a port with an attached motor, `set_duty_cycle(time, duty)`
with `time` in microseconds asks the physics model to integrate to
exactly `time / 1000000 + 5 / 1000` seconds — the call instant plus the
fixed 5 ms lookahead — with the duty held as the constant input, and its
only effect is the new state of the shared simulated motor. -/
theorem c6_set_duty_lookahead (dyn : Dyn) (m : SimMotor) (time duty : ℚ) :
    VirtualMotorDriver.on_set_duty_cycle dyn (some m) time duty =
      some (m.simulate dyn (time / 1000000 + 5 / 1000) duty) :=
  rfl

/-- C8: for every port (motor attached or not) and every time argument,
`coast(time)` produces exactly the same resulting state as
`set_duty_cycle(time, 0)`. -/
theorem c8_coast_equiv (dyn : Dyn) (sim_motor : Option SimMotor) (time : ℚ) :
    VirtualMotorDriver.on_coast dyn sim_motor time =
      VirtualMotorDriver.on_set_duty_cycle dyn sim_motor time 0 :=
  rfl

/-- C9: invoking `set_duty_cycle` twice in immediate succession with
identical arguments and no intervening state change yields the identical
simulated-motor state, and hence identical `abs_count`, `count` and
`rate` readings after each invocation. -/
theorem c9_determinism (dyn : Dyn) (m : SimMotor) (time duty initial_angle : ℚ) :
    VirtualMotorDriver.on_set_duty_cycle dyn
        (VirtualMotorDriver.on_set_duty_cycle dyn (some m) time duty) time duty =
      VirtualMotorDriver.on_set_duty_cycle dyn (some m) time duty ∧
    VirtualCounter.abs_count
        (VirtualMotorDriver.on_set_duty_cycle dyn
          (VirtualMotorDriver.on_set_duty_cycle dyn (some m) time duty) time duty) =
      VirtualCounter.abs_count (VirtualMotorDriver.on_set_duty_cycle dyn (some m) time duty) ∧
    VirtualCounter.count
        (VirtualMotorDriver.on_set_duty_cycle dyn
          (VirtualMotorDriver.on_set_duty_cycle dyn (some m) time duty) time duty)
        initial_angle =
      VirtualCounter.count (VirtualMotorDriver.on_set_duty_cycle dyn (some m) time duty)
        initial_angle ∧
    VirtualCounter.rate
        (VirtualMotorDriver.on_set_duty_cycle dyn
          (VirtualMotorDriver.on_set_duty_cycle dyn (some m) time duty) time duty) =
      VirtualCounter.rate (VirtualMotorDriver.on_set_duty_cycle dyn (some m) time duty) := by
  have h : VirtualMotorDriver.on_set_duty_cycle dyn
      (VirtualMotorDriver.on_set_duty_cycle dyn (some m) time duty) time duty =
      VirtualMotorDriver.on_set_duty_cycle dyn (some m) time duty := by
    simp only [VirtualMotorDriver.on_set_duty_cycle, simulate_idem]
  exact ⟨h, by rw [h], by rw [h], by rw [h]⟩

/-- C10: for every attached motor and every real latest angle,
`abs_count` lies in `[-180°, 180°)`; it returns exactly `-180` whenever
the latest angle is congruent to `180°` modulo `360°`, and it never
returns `+180`. -/
theorem c10_abs_count_half_open (m : SimMotor) :
    (-180 ≤ VirtualCounter.abs_count (some m) ∧ VirtualCounter.abs_count (some m) < 180) ∧
    (pymod m.get_latest_output.1 360 = 180 → VirtualCounter.abs_count (some m) = -180) ∧
    VirtualCounter.abs_count (some m) ≠ 180 :=
  ⟨⟨abs_count_lb m, abs_count_ub m⟩, abs_count_of_pymod_eq m,
    ne_of_lt (lt_of_lt_of_le (abs_count_ub m) (by norm_num))⟩

/-- C10 (witness): a latest angle of `540°` is congruent to `180°` modulo
`360°` and reads back as exactly `-180`. -/
theorem c10_abs_count_half_open_witness :
    pymod (SimMotor.get_latest_output { time := 0, angle := 540, speed := 0 }).1 360 = 180 ∧
    VirtualCounter.abs_count (some { time := 0, angle := 540, speed := 0 }) = -180 ∧
    VirtualCounter.abs_count (some { time := 0, angle := 540, speed := 0 }) ≠ 180 := by
  have h : pymod (SimMotor.get_latest_output { time := 0, angle := 540, speed := 0 }).1 360
      = 180 := by
    simp only [SimMotor.get_latest_output]
    norm_num [pymod]
  exact ⟨h, (c10_abs_count_half_open { time := 0, angle := 540, speed := 0 }).2.1 h,
    (c10_abs_count_half_open { time := 0, angle := 540, speed := 0 }).2.2⟩

end PbioVirtual

namespace PbioVirtual

/-- C7: under the contract of `random.randint(-180, 179)` — every draw is
an integer between `-180` and `179` inclusive — platform construction
seeds, for every port whose device type differs from `NONE`, a simulated
motor at the current virtual-clock time (the fresh clock's microseconds
over `10^6`) with the drawn initial angle, which lies in `[-180°, 180°)`,
and initial speed `0`; every port with device type `NONE` is left with an
empty motor slot. -/
theorem c7_construction (ports : List (PortId × IODeviceTypeId)) (rand : Nat → ℤ)
    (hr : ∀ i, -180 ≤ rand i ∧ rand i ≤ 179) :
    (Platform.initCore ports rand).clock = CountingClock.init 0 ∧
    ∀ i (h : i < ports.length),
      ((ports.get ⟨i, h⟩).2 ≠ IODeviceTypeId.NONE →
        (Platform.initCore ports rand).sim_motor.get? i =
          some (some { time := (CountingClock.init 0).microseconds / 1000000
                       angle := (rand i : ℚ)
                       speed := 0 }) ∧
        -180 ≤ ((rand i : ℤ) : ℚ) ∧ ((rand i : ℤ) : ℚ) < 180) ∧
      ((ports.get ⟨i, h⟩).2 = IODeviceTypeId.NONE →
        (Platform.initCore ports rand).sim_motor.get? i = some none) := by
  refine ⟨rfl, ?_⟩
  intro i h
  have hslot := platformInitSlots_get? (CountingClock.init 0) rand ports 0 i h
  simp only [Nat.zero_add] at hslot
  constructor
  · intro hne
    refine ⟨?_, ?_, ?_⟩
    · simp only [Platform.initCore]
      rw [hslot, platformInitPort, if_pos hne]
    · exact_mod_cast (hr i).1
    · have h179 : ((rand i : ℤ) : ℚ) ≤ 179 := by exact_mod_cast (hr i).2
      linarith
  · intro heq
    simp only [Platform.initCore]
    rw [hslot, platformInitPort, if_neg (not_not_intro heq)]

/-- C7 (witness): with the source's configuration table and the constant
draw `42`, port A (index 0) receives a motor seeded at clock time zero
with angle `42` and speed `0`, and port B (index 1) stays empty. -/
theorem c7_construction_witness :
    (Platform.initCore Platform.PORTS (fun _ => 42)).sim_motor.get? 0 =
      some (some { time := (CountingClock.init 0).microseconds / 1000000
                   angle := ((42 : ℤ) : ℚ)
                   speed := 0 }) ∧
    (Platform.initCore Platform.PORTS (fun _ => 42)).sim_motor.get? 1 = some none := by
  have h := c7_construction Platform.PORTS (fun _ => 42)
    (fun i => ⟨by norm_num, by norm_num⟩)
  exact ⟨((h.2 0 (by norm_num [Platform.PORTS])).1 (by decide)).1,
    (h.2 1 (by norm_num [Platform.PORTS])).2 (by decide)⟩

end PbioVirtual
